import Mathlib

/-!
Verification of the bookstore-app repository's reconciliation core.

The repository contains several parallel JavaScript implementations of a
book-CRUD flow.  We shallowly embed the ones the claims reference:

* the ownership-aware service (`src/unnamed/part_000`, referred to below as
  `bookService`): `createBook`, `getBookByIdForUser`, `updateBook`,
  `deleteBookAsAdmin`, `deleteUploadedFile`;
* its controller layer (`src/controllers/bookController.js`):
  `createBookController`, `getBookByIdController`;
* the role middleware (`src/middleware/authorizeMiddleware.js`);
* the S3-backed controller variant (`src/controllers/book.js`, second
  document: `updateBook` of the "S3 Server") and the basic controller
  (`src/controllers/book.js`, first document: `createBook`).

Mongo/Mongoose, the file system and S3 are external collaborators; they are
embedded as explicit state (an association list of records, a set of stored
attachment keys) plus an environment that injects the outcomes of the
fallible store operations.  Calls to `deleteUploadedFile`/`deleteFileFromS3`
and record-store commits are recorded in an event trace so that ordering
claims can be stated.
-/

namespace Bookstore

/-- A JavaScript string-ish request-body value: `undefined`, `null`, or a
string.  Needed because the source distinguishes `=== undefined`,
`=== null` and `=== ""` on the same field. -/
inductive JsStr where
  | undef
  | null
  | str (s : String)
deriving DecidableEq, Repr

/-- JS truthiness test for a `JsStr`: `undefined`, `null` and `""` are falsy. -/
def JsStr.falsy : JsStr → Bool
  | .undef => true
  | .null => true
  | .str s => s == ""

/-- The string content of a `JsStr`; only used on values known to be
non-falsy strings. -/
def JsStr.toStr : JsStr → String
  | .str s => s
  | _ => ""

/-- JS truthiness of an optional string field (e.g. `if (book.coverImage)`):
`undefined`/`null` and the empty string are falsy. -/
def covTruthy : Option String → Bool
  | none => false
  | some s => !(s == "")

/-- Models `mongoose.Types.ObjectId.isValid` on its common 24-hex-character
string form (the repository only ever passes strings). -/
def isValidObjectId (s : String) : Bool :=
  s.length == 24 && s.toList.all
    (fun c => c.isDigit || ('a' ≤ c && c ≤ 'f') || ('A' ≤ c && c ≤ 'F'))

/-- Whitespace-trimmed character list of a string (kernel-computable form
of `String.trim`). -/
def trimChars (s : String) : List Char :=
  ((s.toList.dropWhile Char.isWhitespace).reverse.dropWhile
    Char.isWhitespace).reverse

/-- Parses a non-empty all-digit list to a number; `none` when empty or a
non-digit appears. -/
def parseDigits : List Char → Option Nat
  | [] => none
  | cs =>
    cs.foldl
      (fun acc c =>
        acc.bind (fun n => if c.isDigit then some (n * 10 + (c.toNat - 48)) else none))
      (some 0)

/-- Models JavaScript `Number(s)` on the optionally-signed integer literals
the year field carries, returning `none` for `NaN` (non-numeric input).
The model is restricted to integers: the Book schema types `year` as an
integer-valued `Number` and no claim depends on fractional parsing. -/
def jsNumber (s : String) : Option Int :=
  match trimChars s with
  | [] => none
  | '-' :: cs => (parseDigits cs).map (fun n => -(n : Int))
  | '+' :: cs => (parseDigits cs).map (fun n => (n : Int))
  | cs => (parseDigits cs).map (fun n => (n : Int))

/-- A stored book record, following the Book schema (`src/models/book.js`:
`title`, `author`, optional `year`, optional `coverImage`) together with the
`createdBy` owner reference that the ownership-aware service
(`src/unnamed/part_000`) reads and writes.  Modelled from the spec: the
ownership-aware variant's Book model file is not under `src/` (only the
basic schema is); spec §3 gives the record an `ownerId` identity reference,
which `part_000` calls `createdBy`.  Mongoose's `createdAt`/`updatedAt`
timestamps are not modelled; no claim mentions them.  A `null` and an
absent `coverImage` are both modelled as `none`. -/
structure BookRecord where
  title : String
  author : String
  year : Option Int
  coverImage : Option String
  createdBy : String
deriving DecidableEq, Repr

/-- The record store: Mongo's books collection as an association list from
ObjectId strings to records. -/
abbrev Store := List (String × BookRecord)

/-- Models `Book.findById`. -/
def findRec (id : String) (st : Store) : Option BookRecord :=
  (st.find? (fun p => p.1 == id)).map (·.2)

/-- Replaces the record stored under `id` (the write performed by
`findByIdAndUpdate`). -/
def setRec (id : String) (r : BookRecord) (st : Store) : Store :=
  st.map (fun p => if p.1 == id then (id, r) else p)

/-- Removes the record stored under `id` (the write performed by
`findByIdAndDelete`). -/
def eraseRec (id : String) (st : Store) : Store :=
  st.filter (fun p => p.1 != id)

/-- Observable events of an operation, in execution order:
`commit` is a record-store write (update or delete) being confirmed,
`delFile k ok` is an attachment-store deletion of key `k` being issued
(`ok` records whether the underlying fs/S3 deletion succeeded; the sources
only log that outcome). -/
inductive Ev where
  | commit
  | delFile (key : String) (ok : Bool)
deriving DecidableEq, Repr

/-- Whether an event is the record-store commit. -/
def Ev.isCommit : Ev → Bool
  | .commit => true
  | _ => false

/-- Whether an event deletes attachment key `k` (either outcome). -/
def delOf (k : String) : Ev → Bool
  | .delFile k2 _ => k2 == k
  | _ => false

/-- Whether an event is any attachment deletion. -/
def isDel : Ev → Bool
  | .delFile _ _ => true
  | _ => false

/-- The prefix of a trace strictly before the first record-store commit
(the whole trace when nothing was committed). -/
def beforeCommit (tr : List Ev) : List Ev :=
  tr.takeWhile (fun e => !e.isCommit)

/-- Models `bookService.deleteUploadedFile` (part_000 lines 222-232): a
falsy path is ignored; otherwise `fs.unlink` is issued and its error, if
any, is only logged - the function itself always returns.  `fails` is the
environment's choice of which fs deletions fail. -/
def deleteUploadedFile (fails : String → Bool) (path : Option String) : List Ev :=
  match path with
  | none => []
  | some p => if p == "" then [] else [Ev.delFile p (!fails p)]

/-- Outcome the environment assigns to a fallible Mongoose write. -/
inductive DbOutcome where
  | ok
  | validationError
  | dbFailure
deriving DecidableEq, Repr

/-! ## bookService.createBook (src/unnamed/part_000 lines 7-43) -/

/-- The `bookData` argument of `createBook`: body fields `title`, `author`,
`year` (strings or absent) plus the `coverImage` path the controller took
from `req.file`. -/
structure CreateData where
  title : JsStr
  author : JsStr
  year : JsStr
  coverImage : Option String
deriving DecidableEq, Repr

/-- Failures of `createBook`, matching its throw sites. -/
inductive CErr where
  | missingFields
  | invalidYear
  | validationErr
  | dbFail
deriving DecidableEq, Repr

/-- Environment for a create: the ObjectId Mongo generates for the new
document, the outcome of `newBook.save()`, and which fs deletions fail. -/
structure CreateEnv where
  newId : String
  dbo : DbOutcome
  unlinkFails : String → Bool

/-- Models `bookService.createBook` (part_000 lines 7-43).  Every failure
path first deletes the staged `coverImage` (when truthy) via
`deleteUploadedFile`, exactly as in the source; a successful `save` appends
the new record under the generated id. -/
def createBook (bd : CreateData) (userId : String) (env : CreateEnv) (st : Store) :
    Except CErr BookRecord × List Ev × Store :=
  if bd.title.falsy || bd.author.falsy then
    (.error .missingFields, deleteUploadedFile env.unlinkFails bd.coverImage, st)
  else
    let yearRes : Except Unit (Option Int) :=
      match bd.year with
      | .undef => .ok none
      | .null => .ok none
      | .str y =>
        if (trimChars y).isEmpty then .ok none
        else
          match jsNumber y with
          | none => .error ()
          | some n => .ok (some n)
    match yearRes with
    | .error _ =>
      (.error .invalidYear, deleteUploadedFile env.unlinkFails bd.coverImage, st)
    | .ok parsedYear =>
      let newBook : BookRecord :=
        { title := bd.title.toStr
          author := bd.author.toStr
          year := parsedYear
          coverImage := bd.coverImage
          createdBy := userId }
      match env.dbo with
      | .ok => (.ok newBook, [Ev.commit], (env.newId, newBook) :: st)
      | .validationError =>
        (.error .validationErr, deleteUploadedFile env.unlinkFails bd.coverImage, st)
      | .dbFailure =>
        (.error .dbFail, deleteUploadedFile env.unlinkFails bd.coverImage, st)

/-! ## bookService.getBookByIdForUser (src/unnamed/part_000 lines 62-82) -/

/-- Failures of the read path.  The catch-all database failure of the source
is unreachable in this pure embedding of `findById` and is omitted. -/
inductive ReadErr where
  | invalidId
deriving DecidableEq, Repr

/-- Models `bookService.getBookByIdForUser` (part_000 lines 62-82): invalid
id throws; a missing record yields `null`; an admin sees the record; a
non-owner gets `null`; the owner sees the record. -/
def getBookByIdForUser (bookId userId userRole : String) (st : Store) :
    Except ReadErr (Option BookRecord) :=
  if !isValidObjectId bookId then .error .invalidId
  else
    match findRec bookId st with
    | none => .ok none
    | some book =>
      if userRole == "admin" then .ok (some book)
      else if book.createdBy != userId then .ok none
      else .ok (some book)

/-- Models `getBookByIdController` (src/controllers/bookController.js lines
49-71) as the HTTP status it responds with: 400 for an invalid id, 404 when
the service yields `null` ("Book not found or access denied"), 200 with the
record otherwise.  The controller's catch branches (403 on an
"Access Denied" message, 500 otherwise) are unreachable here because the
service throws only on an invalid id, which the controller checks first. -/
def getBookByIdControllerStatus (bookId userId userRole : String) (st : Store) : Nat :=
  if !isValidObjectId bookId then 400
  else
    match getBookByIdForUser bookId userId userRole st with
    | .error _ => 500
    | .ok none => 404
    | .ok (some _) => 200

/-! ## bookService.updateBook (src/unnamed/part_000 lines 84-191) -/

/-- The `updateData` argument of `updateBook`: body fields `title`, `author`,
`year` (strings or absent) and `coverImageAction`, which the controller
takes from the body's `coverImage` field and which may be `undefined`,
`null` or a string (the empty string being the explicit-clear sentinel). -/
structure UpdateData where
  title : Option String
  author : Option String
  year : Option String
  coverImageAction : JsStr
deriving DecidableEq, Repr

/-- The `finalUpdatePayload` object handed to `findByIdAndUpdate`'s `$set`.
`none` means the key is absent; for `year` and `coverImage` the present
value can itself be `undefined` (`some .undef`, which Mongoose strips from
the update, leaving the stored field unchanged), `null` (`some .null`,
which stores null) or a concrete value. -/
structure UpdatePayload where
  title : Option String := none
  author : Option String := none
  year : Option (Option Int) := none
  coverImage : Option JsStr := none
deriving DecidableEq, Repr

/-- Models `Object.keys(finalUpdatePayload).length === 0`: a key assigned
the value `undefined` still counts as present in JavaScript. -/
def UpdatePayload.isEmpty (p : UpdatePayload) : Bool :=
  p.title.isNone && p.author.isNone && p.year.isNone && p.coverImage.isNone

/-- Models applying `{ $set: finalUpdatePayload }` to a stored record.
Mongoose strips keys whose value is `undefined` (so `year: undefined` and
`coverImage: undefined` leave the field unchanged), stores `null` as a null
field, and otherwise overwrites. -/
def applySet (p : UpdatePayload) (r : BookRecord) : BookRecord :=
  { r with
    title := p.title.getD r.title
    author := p.author.getD r.author
    year :=
      match p.year with
      | none => r.year
      | some none => r.year
      | some (some n) => some n
    coverImage :=
      match p.coverImage with
      | none => r.coverImage
      | some .undef => r.coverImage
      | some .null => none
      | some (.str k) => some k }

/-- The transient attachment decision of spec §3, as the source computes it
in part_000 lines 136-149: a truthy new upload path wins regardless of the
action field; otherwise the `""`/`null` sentinel clears; otherwise keep. -/
inductive Decision where
  | replace (k : String)
  | clear
  | keep
deriving DecidableEq, Repr

/-- The attachment decision of `updateBook` (part_000 lines 136-149):
`if (newCoverImagePath) ... else if (action === "" || action === null) ...
else` nothing. -/
def attachmentDecision (newCoverImagePath : Option String) (act : JsStr) : Decision :=
  if covTruthy newCoverImagePath then .replace (newCoverImagePath.getD "")
  else if act == .str "" || act == .null then .clear
  else .keep

/-- Failures of `updateBook`, matching its throw sites and the statuses it
assigns.  Note that the source's "Book not found after update attempt"
(status 404) is thrown inside the `try` block and re-caught by its own
`catch`, whose name check (`dbError.name === "ValidationError"`) does not
match a plain Error, so that path actually surfaces as the 500
"Database query failed while updating book." - see `UErr.status`. -/
inductive UErr where
  | invalidId
  | notFound
  | forbidden
  | invalidYear
  | noUpdateData
  | validationErr
  | dbFail
deriving DecidableEq, Repr

/-- The `err.status` each failure carries to the controller. -/
def UErr.status : UErr → Nat
  | .invalidId => 400
  | .notFound => 404
  | .forbidden => 403
  | .invalidYear => 400
  | .noUpdateData => 400
  | .validationErr => 400
  | .dbFail => 500

/-- Environment for an update: the outcome of `findByIdAndUpdate`
(`validationError` for a schema-validator rejection, `dbFailure` for any
other database error), whether the record vanished between the initial
fetch and the update (`raceGone`, the lost-race-with-a-delete case in which
`findByIdAndUpdate` returns null), and which fs deletions fail. -/
structure UpdateEnv where
  dbo : DbOutcome
  raceGone : Bool
  unlinkFails : String → Bool

/-- The field part of the payload (part_000 lines 113-132): `title` and
`author` copied when present; `year` parsed when present, an
all-whitespace string mapping to an `undefined` payload entry and a
non-numeric string failing. -/
def buildFieldPayload (ud : UpdateData) : Except Unit UpdatePayload :=
  let p1 : UpdatePayload := { title := ud.title, author := ud.author }
  match ud.year with
  | none => .ok p1
  | some y =>
    if (trimChars y).isEmpty then .ok { p1 with year := some none }
    else
      match jsNumber y with
      | none => .error ()
      | some n => .ok { p1 with year := some (some n) }

/-- Models `bookService.updateBook` (part_000 lines 84-191), returning the
result, the event trace (fs deletions and the record commit, in execution
order) and the resulting record store.  Faithful details: every failure
before and after the commit deletes the staged new upload; the old image is
marked from the fetched record only in the replace/clear branches and
deleted only after a successful commit, and only when it differs from the
committed record's `coverImage`; the race branch deletes the new upload
twice (once at the in-`try` throw site, once in the `catch`) and surfaces
as `dbFail` per the note on `UErr`. -/
def updateBook (bookId : String) (ud : UpdateData) (userId userRole : String)
    (newCoverImagePath : Option String) (env : UpdateEnv) (st : Store) :
    Except UErr BookRecord × List Ev × Store :=
  let delNew := deleteUploadedFile env.unlinkFails newCoverImagePath
  if !isValidObjectId bookId then (.error .invalidId, delNew, st)
  else
    match findRec bookId st with
    | none => (.error .notFound, delNew, st)
    | some existingBook =>
      if existingBook.createdBy != userId && userRole != "admin" then
        (.error .forbidden, delNew, st)
      else
        match buildFieldPayload ud with
        | .error _ => (.error .invalidYear, delNew, st)
        | .ok p3 =>
          let dec := attachmentDecision newCoverImagePath ud.coverImageAction
          let oldImagePathToDelete : Option String :=
            match dec with
            | .replace _ =>
              if covTruthy existingBook.coverImage then existingBook.coverImage else none
            | .clear =>
              if covTruthy existingBook.coverImage then existingBook.coverImage else none
            | .keep => none
          let p4 : UpdatePayload :=
            match dec with
            | .replace k => { p3 with coverImage := some (.str k) }
            | .clear => { p3 with coverImage := some .null }
            | .keep => p3
          if p4.isEmpty && !covTruthy newCoverImagePath &&
              ud.coverImageAction == .undef then
            (.error .noUpdateData, [], st)
          else
            match env.dbo with
            | .validationError => (.error .validationErr, delNew, st)
            | .dbFailure => (.error .dbFail, delNew, st)
            | .ok =>
              if env.raceGone then (.error .dbFail, delNew ++ delNew, st)
              else
                match findRec bookId st with
                | none => (.error .dbFail, delNew ++ delNew, st)
                | some cur =>
                  let updatedBook := applySet p4 cur
                  let postDel :=
                    match oldImagePathToDelete with
                    | some old =>
                      if some old != updatedBook.coverImage then
                        deleteUploadedFile env.unlinkFails (some old)
                      else []
                    | none => []
                  (.ok updatedBook, Ev.commit :: postDel, setRec bookId updatedBook st)

/-! ## bookService.deleteBookAsAdmin (src/unnamed/part_000 lines 193-220) -/

/-- Failures of the delete path. -/
inductive DErr where
  | invalidId
  | notFound
  | dbFail
deriving DecidableEq, Repr

/-- Environment for a delete: whether `findByIdAndDelete` throws, and which
fs deletions fail. -/
structure DeleteEnv where
  dbFails : Bool
  unlinkFails : String → Bool

/-- Models `bookService.deleteBookAsAdmin` (part_000 lines 193-220).  The
`userRole` parameter is accepted and - exactly as in the source - never
read.  On success the record is removed first and only then is
`deleteUploadedFile` issued for a truthy `coverImage`; the fs outcome is
only logged, so the returned result never depends on it. -/
def deleteBookAsAdmin (bookId : String) (userRole : String) (env : DeleteEnv)
    (st : Store) : Except DErr BookRecord × List Ev × Store :=
  if !isValidObjectId bookId then (.error .invalidId, [], st)
  else if env.dbFails then (.error .dbFail, [], st)
  else
    match findRec bookId st with
    | none => (.error .notFound, [], st)
    | some deletedBook =>
      let postDel :=
        if covTruthy deletedBook.coverImage then
          deleteUploadedFile env.unlinkFails deletedBook.coverImage
        else []
      (.ok deletedBook, Ev.commit :: postDel, eraseRec bookId st)

/-! ## authorizeMiddleware (src/middleware/authorizeMiddleware.js) -/

/-- The authenticated identity `authMiddleware` attaches to the request. -/
structure Identity where
  id : String
  role : String
deriving DecidableEq, Repr

/-- What the middleware does with the request. -/
inductive MwResult where
  | unauthorized
  | forbiddenResp
  | next
deriving DecidableEq, Repr

/-- Models `authorizeMiddleware(allowedRoles)`: 401 when `req.user` or its
`role` is falsy, 403 when the role is not in `allowedRoles`, otherwise pass
through.  The book router installs it on DELETE with `["admin"]`
(src/unnamed/part_003 line 116). -/
def authorizeMiddleware (allowedRoles : List String) (user : Option Identity) :
    MwResult :=
  match user with
  | none => .unauthorized
  | some u =>
    if u.role == "" then .unauthorized
    else if !allowedRoles.contains u.role then .forbiddenResp
    else .next

/-! ## createBookController (src/controllers/bookController.js lines 6-34) -/

/-- The multer-populated `req.file`, reduced to the `path` field the
controller reads.  Multer's diskStorage writes the blob under
`uploads/{fieldname}-{timestamp}{ext}` and `path` is that location. -/
structure ReqFile where
  path : String
deriving DecidableEq, Repr

/-- Models `req.file.path.replace(/\\/g, "/")`. -/
def normalizePath (s : String) : String :=
  s.map (fun c => if c == '\\' then '/' else c)

/-- The request body as `createBookController` receives it.  The
`coverImage` body field is carried to show that the controller never reads
it: only `title`, `author` and `year` are destructured from `req.body`. -/
structure CreateBody where
  title : JsStr
  author : JsStr
  year : JsStr
  coverImage : JsStr
deriving DecidableEq, Repr

/-- Models `createBookController` (bookController.js lines 6-34) as the
HTTP status outcome: the service is invoked with `coverImage` taken from
`req.file` (normalized), never from the body; a year failure or schema
validation failure maps to 400, the remaining failures fall into the
generic 500 branch, which deletes the uploaded file a second time. -/
def createBookController (body : CreateBody) (reqFile : Option ReqFile)
    (fileValidationError : Bool) (userId : String) (env : CreateEnv) (st : Store) :
    Except Nat BookRecord × List Ev × Store :=
  let coverImagePath := reqFile.map (fun f => normalizePath f.path)
  if fileValidationError then (.error 400, [], st)
  else
    match createBook ⟨body.title, body.author, body.year, coverImagePath⟩
        userId env st with
    | (.ok b, tr, st2) => (.ok b, tr, st2)
    | (.error .invalidYear, tr, st2) => (.error 400, tr, st2)
    | (.error .validationErr, tr, st2) => (.error 400, tr, st2)
    | (.error .missingFields, tr, st2) =>
      (.error 500, tr ++ deleteUploadedFile env.unlinkFails coverImagePath, st2)
    | (.error .dbFail, tr, st2) =>
      (.error 500, tr ++ deleteUploadedFile env.unlinkFails coverImagePath, st2)

/-! ## The basic controller's createBook (src/controllers/book.js lines 38-65)

This prototype variant has no authentication and takes `coverImage`
directly from `req.body`. -/

/-- A general JS body value, needed for the `typeof year !== "number"`
check of the basic controller. -/
inductive JsVal where
  | undef
  | null
  | num (n : Int)
  | str (s : String)
deriving DecidableEq, Repr

/-- The basic controller's request body: `title`, `author`, `year`,
`coverImage` destructured from `req.body`. -/
structure BasicBody where
  title : JsStr
  author : JsStr
  year : JsVal
  coverImage : JsStr
deriving DecidableEq, Repr

/-- Models the basic `createBook` (book.js lines 38-65) as an HTTP-status
outcome: missing title/author or a non-number year give 400; otherwise
`new Book({title, author, year, coverImage})` is saved with `coverImage`
taken verbatim from the request body (the schema in src/models/book.js has
no `createdBy`, so none is stored; modelled as the empty string). -/
def createBookBasic (body : BasicBody) (env : CreateEnv) (st : Store) :
    Except Nat BookRecord × Store :=
  if body.title.falsy || body.author.falsy then (.error 400, st)
  else
    match body.year with
    | .num n => basicSave body (some n) env st
    | .undef => basicSave body none env st
    | .null => (.error 400, st)
    | .str _ => (.error 400, st)
where
  /-- The `new Book(...)` + `save()` tail, with `year` already checked. -/
  basicSave (body : BasicBody) (yr : Option Int) (env : CreateEnv) (st : Store) :
      Except Nat BookRecord × Store :=
    let newBook : BookRecord :=
      { title := body.title.toStr
        author := body.author.toStr
        year := yr
        coverImage :=
          match body.coverImage with
          | .str s => some s
          | _ => none
        createdBy := "" }
    match env.dbo with
    | .ok => (.ok newBook, (env.newId, newBook) :: st)
    | _ => (.error 500, st)

/-! ## The S3-server updateBook (src/controllers/book.js lines 147-239)

This variant uploads `req.file` to S3, and - unlike the ownership-aware
service - issues the deletion of the old S3 key BEFORE `findByIdAndUpdate`
commits the record update. -/

/-- Models JavaScript `s.startsWith(p)`, in a form the kernel can compute
(character-list comparison, equivalent to `String.startsWith`). -/
def jsStartsWith (s p : String) : Bool := p.toList.isPrefixOf s.toList

/-- Models `isS3Key` (src/unnamed/part_004 lines 24-26) on an optional
stored key: truthy, a string, and carrying the `"book-covers/"` key
namespace marker. -/
def isS3Key : Option String → Bool
  | none => false
  | some k => !(k == "") && jsStartsWith k "book-covers/"

/-- The S3-server update request body: `title`, `author`, `year` (string or
absent or null) and the `coverImage` field read as the clear-action
sentinel. -/
structure S3UpdateBody where
  title : Option String
  author : Option String
  year : JsStr
  coverImageAction : JsStr
deriving DecidableEq, Repr

/-- Failures of the S3-server update, matching its response sites.  Here the
`"Book not found after update attempt"` 404 is returned directly (not
re-thrown through a catch), so it keeps its status. -/
inductive S3UErr where
  | invalidId
  | notFound
  | invalidYear
  | noUpdateData
  | notFoundAfter
  | validationErr
  | dbFail
deriving DecidableEq, Repr

/-- Environment for the S3-server update: the generated file name
`uploadFileToS3` keys the blob under (`"book-covers/" ++ uploadName`), the
`findByIdAndUpdate` outcome, the lost-race flag and which S3 deletions
fail.  A successful upload is assumed (no claim concerns S3 upload
failure). -/
structure S3Env where
  uploadName : String
  dbo : DbOutcome
  raceGone : Bool
  s3DeleteFails : String → Bool

/-- Models the S3-server `updateBook` (book.js lines 147-239).  Faithful
ordering: `s3KeyToDelete` is computed from the fetched record and deleted
(best-effort, errors only logged) before the no-op check and before
`findByIdAndUpdate` runs; the clear branch writes `coverImage: undefined`,
which Mongoose strips from the `$set`. -/
def updateBookS3Server (bookId : String) (body : S3UpdateBody) (reqFile : Bool)
    (env : S3Env) (st : Store) : Except S3UErr BookRecord × List Ev × Store :=
  if !isValidObjectId bookId then (.error .invalidId, [], st)
  else
    match findRec bookId st with
    | none => (.error .notFound, [], st)
    | some existingBook =>
      let p1 : UpdatePayload := { title := body.title, author := body.author }
      let yearRes : Except Unit UpdatePayload :=
        match body.year with
        | .undef => .ok p1
        | .null => .ok { p1 with year := some none }
        | .str y =>
          if (trimChars y).isEmpty then .ok { p1 with year := some none }
          else
            match jsNumber y with
            | none => .error ()
            | some n => .ok { p1 with year := some (some n) }
      match yearRes with
      | .error _ => (.error .invalidYear, [], st)
      | .ok p2 =>
        let newS3Key := "book-covers/" ++ env.uploadName
        let decided : UpdatePayload × Option String :=
          if reqFile then
            ({ p2 with coverImage := some (.str newS3Key) },
             if isS3Key existingBook.coverImage &&
                 existingBook.coverImage != some newS3Key then
               existingBook.coverImage
             else none)
          else if body.coverImageAction == .str "" ||
              body.coverImageAction == .null then
            ({ p2 with coverImage := some .undef },
             if isS3Key existingBook.coverImage then existingBook.coverImage
             else none)
          else (p2, none)
        let p4 := decided.1
        let preDel :=
          match decided.2 with
          | some k => [Ev.delFile k (!env.s3DeleteFails k)]
          | none => []
        if p4.isEmpty && !reqFile && body.coverImageAction == .undef then
          (.error .noUpdateData, preDel, st)
        else
          match env.dbo with
          | .validationError => (.error .validationErr, preDel, st)
          | .dbFailure => (.error .dbFail, preDel, st)
          | .ok =>
            if env.raceGone then (.error .notFoundAfter, preDel, st)
            else
              match findRec bookId st with
              | none => (.error .notFoundAfter, preDel, st)
              | some cur =>
                let updatedBook := applySet p4 cur
                (.ok updatedBook, preDel ++ [Ev.commit],
                 setRec bookId updatedBook st)

/-! ## Store lemmas -/

theorem findRec_setRec (id : String) (r : BookRecord) (st : Store) :
    findRec id (setRec id r st) = (findRec id st).map (fun _ => r) := by
  induction st with
  | nil => rfl
  | cons p tl ih =>
    by_cases h : p.1 == id
    · simp [findRec, setRec, List.find?, h]
    · simpa [findRec, setRec, List.find?, h] using ih

theorem setRec_setRec (id : String) (r : BookRecord) (st : Store) :
    setRec id r (setRec id r st) = setRec id r st := by
  induction st with
  | nil => rfl
  | cons p tl ih =>
    simp only [setRec, List.map_cons] at ih ⊢
    congr 1
    by_cases h : p.1 == id <;> simp [h]

theorem applySet_idem (p : UpdatePayload) (r : BookRecord) :
    applySet p (applySet p r) = applySet p r := by
  rcases p with ⟨t, a, y, c⟩
  rcases t with _ | t <;> rcases a with _ | a <;>
    rcases y with _ | (_ | y) <;> rcases c with _ | (_ | _ | c) <;> rfl

theorem applySet_createdBy (p : UpdatePayload) (r : BookRecord) :
    (applySet p r).createdBy = r.createdBy := rfl

/-- A staged-new-blob deletion never deletes a different key. -/
theorem deleteUploadedFile_any_delOf (fails : String → Bool) (path : Option String)
    (old : String) (h : path ≠ some old) :
    (deleteUploadedFile fails path).any (delOf old) = false := by
  rcases path with _ | p
  · rfl
  · by_cases hp : p = ""
    · simp [deleteUploadedFile, hp]
    · have hpo : p ≠ old := fun he => h (by rw [he])
      simp [deleteUploadedFile, hp, delOf, hpo]

/-! ## Claims -/

/-- C5: an update request supplying no field values, no new blob and no
clear action fails with the 400 "no update data provided" error, emits no
attachment-store deletion, and leaves the record store unchanged - for any
existing record the requester may access and regardless of the database
environment. -/
theorem c5_noop_update_rejected (bookId userId userRole : String) (rec : BookRecord)
    (env : UpdateEnv) (st : Store)
    (hv : isValidObjectId bookId = true)
    (hr : findRec bookId st = some rec)
    (hperm : (rec.createdBy != userId && userRole != "admin") = false) :
    updateBook bookId ⟨none, none, none, .undef⟩ userId userRole none env st
      = (.error .noUpdateData, [], st) ∧ UErr.status .noUpdateData = 400 := by
  refine ⟨?_, rfl⟩
  simp [updateBook, hv, hr, hperm, buildFieldPayload, attachmentDecision, covTruthy,
    deleteUploadedFile, UpdatePayload.isEmpty]

/-- Sample data: a valid ObjectId, an owned record with an attachment, and
a one-record store. -/
def bId1 : String := "aaaaaaaaaaaaaaaaaaaaaaaa"

/-- Sample record owned by "u1" with a stored local attachment. -/
def rec1 : BookRecord :=
  { title := "Dune", author := "Herbert", year := some 1965,
    coverImage := some "uploads/coverImage-1.png", createdBy := "u1" }

/-- Sample one-record store. -/
def st1 : Store := [(bId1, rec1)]

/-- Witness for C5: the owner of `rec1` sends an update with no data and is
rejected with the 400 no-update-data error, the store untouched. -/
theorem c5_noop_update_rejected_witness :
    isValidObjectId bId1 = true ∧
    findRec bId1 st1 = some rec1 ∧
    (rec1.createdBy != "u1" && "user" != "admin") = false ∧
    (updateBook bId1 ⟨none, none, none, .undef⟩ "u1" "user" none
        ⟨.ok, false, fun _ => false⟩ st1
      = (.error .noUpdateData, [], st1) ∧ UErr.status .noUpdateData = 400) :=
  ⟨by decide, by decide, by decide,
   c5_noop_update_rejected bId1 "u1" "user" rec1 ⟨.ok, false, fun _ => false⟩ st1
     (by decide) (by decide) (by decide)⟩

/-- C9: deleting an existing record (valid id, database write succeeds)
removes the record from the store first, then issues a best-effort
attachment deletion for a truthy cover image, and reports success whatever
the outcome of that fs deletion - the unlink failure is only recorded in
the event, never in the result. -/
theorem c9_delete_record_first_then_attachment (bookId userRole : String)
    (rec : BookRecord) (env : DeleteEnv) (st : Store)
    (hv : isValidObjectId bookId = true)
    (hdb : env.dbFails = false)
    (hr : findRec bookId st = some rec) :
    deleteBookAsAdmin bookId userRole env st =
      (.ok rec,
       Ev.commit ::
         (if covTruthy rec.coverImage then
            deleteUploadedFile env.unlinkFails rec.coverImage
          else []),
       eraseRec bookId st)
    ∧ (∀ fails : String → Bool,
        (deleteBookAsAdmin bookId userRole ⟨false, fails⟩ st).1 = .ok rec) := by
  constructor
  · simp [deleteBookAsAdmin, hv, hdb, hr]
  · intro fails
    simp [deleteBookAsAdmin, hv, hr]

/-- Witness for C9: an admin deletes `rec1` while every fs unlink fails;
the record is removed, the deletion of the old blob is attempted after the
record commit, and the operation still reports success. -/
theorem c9_delete_record_first_then_attachment_witness :
    isValidObjectId bId1 = true ∧
    (DeleteEnv.mk false (fun _ => true)).dbFails = false ∧
    findRec bId1 st1 = some rec1 ∧
    (deleteBookAsAdmin bId1 "admin" ⟨false, fun _ => true⟩ st1 =
        (.ok rec1,
         Ev.commit ::
           (if covTruthy rec1.coverImage then
              deleteUploadedFile (fun _ => true) rec1.coverImage
            else []),
         eraseRec bId1 st1)
      ∧ (∀ fails : String → Bool,
          (deleteBookAsAdmin bId1 "admin" ⟨false, fails⟩ st1).1 = .ok rec1)) :=
  ⟨by decide, rfl, by decide,
   c9_delete_record_first_then_attachment bId1 "admin" rec1 ⟨false, fun _ => true⟩ st1
     (by decide) rfl (by decide)⟩

/-- C10: the service-level delete ignores its `userRole` argument entirely -
any two role values give identical results, traces and state changes - and
the admin-only restriction is exactly the route-level
`authorizeMiddleware(["admin"])`, which passes a request through if and
only if the authenticated identity's role is `"admin"`. -/
theorem c10_deleteBookAsAdmin_ignores_role :
    (∀ (bookId role1 role2 : String) (env : DeleteEnv) (st : Store),
        deleteBookAsAdmin bookId role1 env st = deleteBookAsAdmin bookId role2 env st)
    ∧ (∀ u : Option Identity,
        authorizeMiddleware ["admin"] u = .next ↔
          ∃ x, u = some x ∧ x.role = "admin") := by
  constructor
  · intro _ _ _ _ _
    rfl
  · intro u
    rcases u with _ | x
    · simp [authorizeMiddleware]
    · by_cases h : x.role = "admin"
      · simp [authorizeMiddleware, h]
      · simp only [authorizeMiddleware]
        by_cases he : x.role = ""
        · simp [he]
        · simp [he, h]

/-- C6: for any existing record, the read returns the record exactly when
the identity is admin or the owner; the update refuses with `Forbidden`
exactly when the identity is neither; and the route-level delete gate
passes exactly when the identity's role is admin, so a non-admin owner
cannot delete their own record. -/
theorem c6_ownership_policy (bookId userId userRole : String) (rec : BookRecord)
    (st : Store)
    (hv : isValidObjectId bookId = true)
    (hr : findRec bookId st = some rec) :
    (getBookByIdForUser bookId userId userRole st = .ok (some rec)
        ↔ (userRole = "admin" ∨ rec.createdBy = userId))
    ∧ (∀ (ud : UpdateData) (newPath : Option String) (env : UpdateEnv),
        (updateBook bookId ud userId userRole newPath env st).1 = .error .forbidden
          ↔ ¬ (userRole = "admin" ∨ rec.createdBy = userId))
    ∧ (∀ u : Option Identity,
        authorizeMiddleware ["admin"] u = .next ↔
          ∃ x, u = some x ∧ x.role = "admin") := by
  refine ⟨?_, ?_, ?_⟩
  · by_cases ha : userRole = "admin"
    · simp [getBookByIdForUser, hv, hr, ha]
    · by_cases ho : rec.createdBy = userId
      · simp [getBookByIdForUser, hv, hr, ha, ho]
      · simp [getBookByIdForUser, hv, hr, ha, ho]
  · intro ud newPath env
    by_cases hC : (rec.createdBy != userId && userRole != "admin") = true
    · have hnP : ¬ (userRole = "admin" ∨ rec.createdBy = userId) := by
        rw [Bool.and_eq_true, bne_iff_ne, bne_iff_ne] at hC
        rintro (h1 | h2)
        · exact hC.2 h1
        · exact hC.1 h2
      simp [updateBook, hv, hr, hC, hnP]
    · have hCf : (rec.createdBy != userId && userRole != "admin") = false :=
        Bool.not_eq_true _ ▸ hC
      have hP : userRole = "admin" ∨ rec.createdBy = userId := by
        by_contra hn
        push_neg at hn
        apply hC
        rw [Bool.and_eq_true, bne_iff_ne, bne_iff_ne]
        exact ⟨hn.2, hn.1⟩
      have hX : (updateBook bookId ud userId userRole newPath env st).1
          ≠ .error .forbidden := by
        simp only [updateBook, hv, hr, hCf]
        simp only [Bool.not_true, Bool.false_eq_true, if_false]
        split
        · simp
        · split
          · simp
          · split
            · simp
            · simp
            · split
              · simp
              · split <;> simp
      exact ⟨fun h => absurd h hX, fun hnp => absurd hP hnp⟩
  · intro u
    rcases u with _ | x
    · simp [authorizeMiddleware]
    · by_cases h : x.role = "admin"
      · simp [authorizeMiddleware, h]
      · simp only [authorizeMiddleware]
        by_cases he : x.role = ""
        · simp [he]
        · simp [he, h]

/-- Witness for C6: the record `rec1` is owned by "u1"; evaluating the
policy for the non-owner "u2" with role "user" exercises every clause. -/
theorem c6_ownership_policy_witness :
    isValidObjectId bId1 = true ∧
    findRec bId1 st1 = some rec1 ∧
    ((getBookByIdForUser bId1 "u2" "user" st1 = .ok (some rec1)
        ↔ ("user" = "admin" ∨ rec1.createdBy = "u2"))
      ∧ (∀ (ud : UpdateData) (newPath : Option String) (env : UpdateEnv),
          (updateBook bId1 ud "u2" "user" newPath env st1).1 = .error .forbidden
            ↔ ¬ ("user" = "admin" ∨ rec1.createdBy = "u2"))
      ∧ (∀ u : Option Identity,
          authorizeMiddleware ["admin"] u = .next ↔
            ∃ x, u = some x ∧ x.role = "admin")) :=
  ⟨by decide, by decide,
   c6_ownership_policy bId1 "u2" "user" rec1 st1 (by decide) (by decide)⟩

/-- C7: a non-admin, non-owner identity reading another user's existing
record gets a 404 response from the controller (existence is not
confirmed), while the same identity's update is refused by the service with
the `Forbidden` error, surfaced with status 403. -/
theorem c7_nonowner_read_404_update_403 (bookId userId userRole : String)
    (rec : BookRecord) (st : Store)
    (hv : isValidObjectId bookId = true)
    (hr : findRec bookId st = some rec)
    (hrole : userRole ≠ "admin")
    (hown : rec.createdBy ≠ userId) :
    getBookByIdControllerStatus bookId userId userRole st = 404
    ∧ (∀ (ud : UpdateData) (newPath : Option String) (env : UpdateEnv),
        (updateBook bookId ud userId userRole newPath env st).1 = .error .forbidden)
    ∧ UErr.status .forbidden = 403 := by
  refine ⟨?_, ?_, rfl⟩
  · simp [getBookByIdControllerStatus, getBookByIdForUser, hv, hr, hrole, hown]
  · intro ud newPath env
    have hC : (rec.createdBy != userId && userRole != "admin") = true := by
      rw [Bool.and_eq_true, bne_iff_ne, bne_iff_ne]
      exact ⟨hown, hrole⟩
    simp [updateBook, hv, hr, hC]

/-- Witness for C7: "u2" (role "user") reads and updates "u1"'s record. -/
theorem c7_nonowner_read_404_update_403_witness :
    isValidObjectId bId1 = true ∧
    findRec bId1 st1 = some rec1 ∧
    (getBookByIdControllerStatus bId1 "u2" "user" st1 = 404
      ∧ (∀ (ud : UpdateData) (newPath : Option String) (env : UpdateEnv),
          (updateBook bId1 ud "u2" "user" newPath env st1).1 = .error .forbidden)
      ∧ UErr.status .forbidden = 403) :=
  ⟨by decide, by decide,
   c7_nonowner_read_404_update_403 bId1 "u2" "user" rec1 st1 (by decide) (by decide)
     (by decide) (by decide)⟩

/-- C8: whenever `createBook` fails - missing title or author, non-numeric
year, schema validation failure or database failure at save - the staged
cover blob is deleted within the failing call and the record store is left
unchanged, so no orphaned blob survives a failed create. -/
theorem c8_failed_create_cleans_staged_blob (bd : CreateData) (userId : String)
    (env : CreateEnv) (st : Store) (k : String) (e : CErr)
    (hk : bd.coverImage = some k) (hk2 : k ≠ "")
    (hfail : (createBook bd userId env st).1 = .error e) :
    ((createBook bd userId env st).2.1).any (delOf k) = true
    ∧ (createBook bd userId env st).2.2 = st := by
  have hdel : (deleteUploadedFile env.unlinkFails bd.coverImage).any (delOf k)
      = true := by
    simp [deleteUploadedFile, hk, hk2, delOf]
  revert hfail
  simp only [createBook]
  split
  · intro _
    exact ⟨hdel, rfl⟩
  · split
    · intro _
      exact ⟨hdel, rfl⟩
    · split
      · intro h
        cases h
      · intro _
        exact ⟨hdel, rfl⟩
      · intro _
        exact ⟨hdel, rfl⟩

/-- Witness for C8: a create with a staged blob but no title fails and the
blob deletion is in the trace, the store unchanged. -/
theorem c8_failed_create_cleans_staged_blob_witness :
    (⟨.undef, .str "A", .undef, some "uploads/x.png"⟩ : CreateData).coverImage
        = some "uploads/x.png" ∧
    "uploads/x.png" ≠ "" ∧
    (createBook ⟨.undef, .str "A", .undef, some "uploads/x.png"⟩ "u1"
        ⟨"b", .ok, fun _ => false⟩ st1).1 = .error CErr.missingFields ∧
    (((createBook ⟨.undef, .str "A", .undef, some "uploads/x.png"⟩ "u1"
        ⟨"b", .ok, fun _ => false⟩ st1).2.1).any (delOf "uploads/x.png") = true
      ∧ (createBook ⟨.undef, .str "A", .undef, some "uploads/x.png"⟩ "u1"
        ⟨"b", .ok, fun _ => false⟩ st1).2.2 = st1) :=
  ⟨by decide, by decide, rfl,
   c8_failed_create_cleans_staged_blob ⟨.undef, .str "A", .undef, some "uploads/x.png"⟩
     "u1" ⟨"b", .ok, fun _ => false⟩ st1 "uploads/x.png" .missingFields
     (by decide) (by decide) rfl⟩

/-- If no event of a trace satisfies a predicate, neither does any event of
its pre-commit half. -/
theorem beforeCommit_any_false (p : Ev → Bool) (tr : List Ev)
    (h : tr.any p = false) : (beforeCommit tr).any p = false := by
  induction tr with
  | nil => rfl
  | cons e tl ih =>
    simp only [List.any_cons, Bool.or_eq_false_iff] at h
    simp only [beforeCommit, List.takeWhile] at ih ⊢
    by_cases hc : (!e.isCommit) = true
    · simp only [hc, if_true, List.any_cons, h.1, Bool.false_or]
      exact ih h.2
    · simp only [Bool.not_eq_true] at hc
      simp [hc]

/-- C1, amended to the ownership-aware service: in every execution of
`bookService.updateBook` - any request, any database outcome, any race -
the stored old attachment key is never deleted before the record update has
been committed.  The hypothesis that the staged new upload path differs
from the stored old key reflects that `AttachmentStore` keys are freshly
generated (`{field}-{timestamp}.{ext}`); the pre-commit deletions are all
of the staged new path. -/
theorem c1_old_attachment_deleted_only_after_commit
    (bookId userId userRole old : String) (ud : UpdateData)
    (newPath : Option String) (rec : BookRecord) (env : UpdateEnv) (st : Store)
    (hr : findRec bookId st = some rec)
    (hold : rec.coverImage = some old)
    (hnew : newPath ≠ some old) :
    ((beforeCommit (updateBook bookId ud userId userRole newPath env st).2.1).any
        (delOf old)) = false := by
  have hdn : (deleteUploadedFile env.unlinkFails newPath).any (delOf old) = false :=
    deleteUploadedFile_any_delOf _ _ _ hnew
  have hdn2 : ((deleteUploadedFile env.unlinkFails newPath
      ++ deleteUploadedFile env.unlinkFails newPath).any (delOf old)) = false := by
    simp [List.any_append, hdn]
  simp only [updateBook]
  split
  · exact beforeCommit_any_false _ _ hdn
  · rw [hr]
    simp only
    split
    · exact beforeCommit_any_false _ _ hdn
    · split
      · exact beforeCommit_any_false _ _ hdn
      · split
        · rfl
        · split
          · exact beforeCommit_any_false _ _ hdn
          · exact beforeCommit_any_false _ _ hdn
          · split
            · exact beforeCommit_any_false _ _ hdn2
            · simp [beforeCommit, List.takeWhile, Ev.isCommit]

/-- Witness for C1: the owner replaces `rec1`'s attachment with a fresh
upload; no deletion of the old key `"uploads/coverImage-1.png"` precedes
the commit. -/
theorem c1_old_attachment_deleted_only_after_commit_witness :
    findRec bId1 st1 = some rec1 ∧
    rec1.coverImage = some "uploads/coverImage-1.png" ∧
    (some "uploads/coverImage-2.png" : Option String)
        ≠ some "uploads/coverImage-1.png" ∧
    ((beforeCommit (updateBook bId1 ⟨none, none, none, .undef⟩ "u1" "user"
        (some "uploads/coverImage-2.png") ⟨.ok, false, fun _ => false⟩ st1).2.1).any
          (delOf "uploads/coverImage-1.png")) = false :=
  ⟨by decide, by decide, by decide,
   c1_old_attachment_deleted_only_after_commit bId1 "u1" "user"
     "uploads/coverImage-1.png" ⟨none, none, none, .undef⟩
     (some "uploads/coverImage-2.png") rec1 ⟨.ok, false, fun _ => false⟩ st1
     (by decide) (by decide) (by decide)⟩

/-- Concrete valid ObjectId for the S3-server scenario. -/
def s3Id : String := "bbbbbbbbbbbbbbbbbbbbbbbb"

/-- Record whose stored attachment is a managed S3 key. -/
def s3Rec : BookRecord :=
  { title := "T", author := "A", year := none,
    coverImage := some "book-covers/old.png", createdBy := "u1" }

/-- One-record store for the S3-server scenario. -/
def s3St : Store := [(s3Id, s3Rec)]

/-- Environment for the S3-server scenario: upload succeeds under
`book-covers/new.png`, the database write succeeds, S3 deletion succeeds. -/
def s3Env1 : S3Env := ⟨"new.png", .ok, false, fun _ => false⟩

/-- Counterexample to C1 as stated: in the S3-server controller's update
(src/controllers/book.js lines 147-239), a request replacing the stored
attachment deletes the old key `book-covers/old.png` BEFORE the record
update commits - the deletion event precedes the commit event in the trace,
at a point where the committed record still references the old key. -/
theorem c1_counterexample_s3_deletes_before_commit :
    ((beforeCommit (updateBookS3Server s3Id ⟨some "New", none, .undef, .undef⟩ true
        s3Env1 s3St).2.1).any (delOf "book-covers/old.png")) = true
    ∧ (updateBookS3Server s3Id ⟨some "New", none, .undef, .undef⟩ true
        s3Env1 s3St).2.1
      = [Ev.delFile "book-covers/old.png" true, Ev.commit] := by
  exact ⟨rfl, rfl⟩

/-- The field payload never touches `coverImage`: that key is only added by
the attachment-decision step. -/
theorem buildFieldPayload_coverImage (ud : UpdateData) (p : UpdatePayload)
    (h : buildFieldPayload ud = .ok p) : p.coverImage = none := by
  simp only [buildFieldPayload] at h
  split at h
  · injection h with h2
    rw [← h2]
  · split at h
    · injection h with h2
      rw [← h2]
    · split at h
      · cases h
      · injection h with h2
        rw [← h2]

/-- A Replace decision only arises from a truthy staged upload path, and
carries exactly that path. -/
theorem attachmentDecision_replace (newPath : Option String) (act : JsStr)
    (k : String) (h : attachmentDecision newPath act = .replace k) :
    newPath = some k := by
  simp only [attachmentDecision] at h
  split at h
  · rename_i hct
    injection h with h2
    rcases newPath with _ | p
    · simp [covTruthy] at hct
    · simp only [Option.getD] at h2
      rw [h2]
  · split at h <;> cases h

/-- A successful `createBook` stores exactly the `coverImage` it was handed
in `bookData`. -/
theorem createBook_ok_coverImage (bd : CreateData) (userId : String)
    (env : CreateEnv) (st : Store) (r : BookRecord)
    (h : (createBook bd userId env st).1 = .ok r) :
    r.coverImage = bd.coverImage := by
  revert h
  simp only [createBook]
  split
  · intro h
    cases h
  · split
    · intro h
      cases h
    · split
      · intro h
        injection h with h2
        rw [← h2]
      · intro h
        cases h
      · intro h
        cases h

/-- C2, amended to the ownership-aware stack: the controller hands the
service only the multer-generated `req.file` path as the attachment key -
the record stored by a successful create has `coverImage` equal to the
normalized upload path (or none), the whole create outcome is independent
of the body's `coverImage` string, and a successful service update leaves
`coverImage` equal to the staged upload path, the previous key, or none -
never a string taken from the request body. -/
theorem c2_attachment_key_provenance (body : CreateBody) (reqFile : Option ReqFile)
    (fv : Bool) (userId : String) (env : CreateEnv) (st : Store) :
    (∀ (r : BookRecord) (tr : List Ev) (st2 : Store),
        createBookController body reqFile fv userId env st = (.ok r, tr, st2) →
        r.coverImage = reqFile.map (fun f => normalizePath f.path))
    ∧ (∀ cov2 : JsStr,
        createBookController body reqFile fv userId env st
          = createBookController { body with coverImage := cov2 } reqFile fv userId env st)
    ∧ (∀ (bookId : String) (ud : UpdateData) (userId2 userRole : String)
          (newPath : Option String) (uenv : UpdateEnv) (ust : Store)
          (rec r : BookRecord) (tr : List Ev) (st2 : Store),
        findRec bookId ust = some rec →
        updateBook bookId ud userId2 userRole newPath uenv ust = (.ok r, tr, st2) →
        r.coverImage = newPath ∨ r.coverImage = rec.coverImage ∨ r.coverImage = none) := by
  refine ⟨?_, ?_, ?_⟩
  · intro r tr st2 h
    simp only [createBookController] at h
    split at h
    · simp at h
    · split at h
      · rename_i b tr0 st3 heq
        rw [Prod.mk.injEq, Prod.mk.injEq] at h
        obtain ⟨hb, -, -⟩ := h
        injection hb with hb2
        subst hb2
        exact createBook_ok_coverImage _ _ _ _ _ (by rw [heq])
      · simp at h
      · simp at h
      · simp at h
      · simp at h
  · intro cov2
    rfl
  · intro bookId ud userId2 userRole newPath uenv ust rec r tr st2 hfr h
    simp only [updateBook] at h
    split at h
    · simp at h
    · rw [hfr] at h
      simp only at h
      split at h
      · simp at h
      · split at h
        · simp at h
        · rename_i p3 hbf
          split at h
          · simp at h
          · split at h
            · simp at h
            · simp at h
            · split at h
              · simp at h
              · rw [Prod.mk.injEq] at h
                obtain ⟨hok, -⟩ := h
                injection hok with hok2
                rw [← hok2]
                have hp3 := buildFieldPayload_coverImage ud p3 hbf
                rcases hdec : attachmentDecision newPath ud.coverImageAction
                  with k | _ | _
                · left
                  have hnp := attachmentDecision_replace _ _ _ hdec
                  simp only [hdec, applySet]
                  rw [hnp]
                · right; right
                  simp [hdec, applySet]
                · right; left
                  simp [hdec, applySet, hp3]

/-- Witness for C2: a create whose body carries a malicious `coverImage`
string but whose upload is `uploads/coverImage-9.png` stores the upload
path; an owner update with a staged new path yields one of the three
allowed sources. -/
theorem c2_attachment_key_provenance_witness :
    (∀ (r : BookRecord) (tr : List Ev) (st2 : Store),
        createBookController ⟨.str "T", .str "A", .undef, .str "evil"⟩
            (some ⟨"uploads\\coverImage-9.png"⟩) false "u1" ⟨"c", .ok, fun _ => false⟩ []
          = (.ok r, tr, st2) →
        r.coverImage = (some ⟨"uploads\\coverImage-9.png"⟩ : Option ReqFile).map
          (fun f => normalizePath f.path))
    ∧ (∀ cov2 : JsStr,
        createBookController ⟨.str "T", .str "A", .undef, .str "evil"⟩
            (some ⟨"uploads\\coverImage-9.png"⟩) false "u1" ⟨"c", .ok, fun _ => false⟩ []
          = createBookController ⟨.str "T", .str "A", .undef, cov2⟩
            (some ⟨"uploads\\coverImage-9.png"⟩) false "u1" ⟨"c", .ok, fun _ => false⟩ [])
    ∧ (∀ (bookId : String) (ud : UpdateData) (userId2 userRole : String)
          (newPath : Option String) (uenv : UpdateEnv) (ust : Store)
          (rec r : BookRecord) (tr : List Ev) (st2 : Store),
        findRec bookId ust = some rec →
        updateBook bookId ud userId2 userRole newPath uenv ust = (.ok r, tr, st2) →
        r.coverImage = newPath ∨ r.coverImage = rec.coverImage ∨ r.coverImage = none) :=
  c2_attachment_key_provenance ⟨.str "T", .str "A", .undef, .str "evil"⟩
    (some ⟨"uploads\\coverImage-9.png"⟩) false "u1" ⟨"c", .ok, fun _ => false⟩ []

/-- Counterexample to C2 as stated: the basic controller's create
(src/controllers/book.js lines 38-65) stores the `coverImage` string taken
verbatim from the request body - here `"not/a/store/key.png"`, which is
neither a multer uploads path nor an S3 `book-covers/` key. -/
theorem c2_counterexample_basic_create_stores_body_string :
    (createBookBasic ⟨.str "T", .str "A", .undef, .str "not/a/store/key.png"⟩
        ⟨"d", .ok, fun _ => false⟩ []).1
      = .ok { title := "T", author := "A", year := none,
              coverImage := some "not/a/store/key.png", createdBy := "" }
    ∧ jsStartsWith "not/a/store/key.png" "uploads/" = false
    ∧ jsStartsWith "not/a/store/key.png" "book-covers/" = false := by
  refine ⟨rfl, by decide, by decide⟩

/-- C3, amended to the ownership-aware service: its attachment decision is
taken in strict priority order, for every update request whose year field
validates (any fields, any action value).  With a staged new blob the
decision is Replace with its key, no matter what the `coverImage` action
field says, the committed record references the new key, and the old key
(when present and different) is deleted - only after the commit.  Without a
blob, the `""`/`null` sentinel gives Clear: the committed record has no key
and the old blob (if any) is deleted.  Otherwise the decision is Keep: the
stored key is unchanged and nothing is deleted.  (The S3-server controller
variant violates the Clear bullet - see the counterexample.) -/
theorem c3_attachment_decision_priority (bookId userId userRole : String)
    (ud : UpdateData) (newPath : Option String) (rec : BookRecord)
    (env : UpdateEnv) (st : Store) (p3 : UpdatePayload)
    (out : Except UErr BookRecord × List Ev × Store)
    (hv : isValidObjectId bookId = true)
    (hr : findRec bookId st = some rec)
    (hperm : (rec.createdBy != userId && userRole != "admin") = false)
    (hbf : buildFieldPayload ud = .ok p3)
    (hdbo : env.dbo = .ok)
    (hrace : env.raceGone = false)
    (hout : out = updateBook bookId ud userId userRole newPath env st) :
    (∀ k, newPath = some k → k ≠ "" →
      attachmentDecision newPath ud.coverImageAction = .replace k
      ∧ ∃ r1, out.1 = .ok r1 ∧ r1.coverImage = some k
          ∧ findRec bookId out.2.2 = some r1
          ∧ ∀ old, rec.coverImage = some old → old ≠ "" → old ≠ k →
              (out.2.1.any (delOf old) = true
               ∧ (beforeCommit out.2.1).any (delOf old) = false))
    ∧ (newPath = none →
        (ud.coverImageAction = .str "" ∨ ud.coverImageAction = .null) →
      attachmentDecision newPath ud.coverImageAction = .clear
      ∧ ∃ r1, out.1 = .ok r1 ∧ r1.coverImage = none
          ∧ findRec bookId out.2.2 = some r1
          ∧ ∀ old, rec.coverImage = some old → old ≠ "" →
              out.2.1.any (delOf old) = true)
    ∧ (newPath = none → ud.coverImageAction = .undef →
      attachmentDecision newPath ud.coverImageAction = .keep
      ∧ (findRec bookId out.2.2).map (fun b => b.coverImage) = some rec.coverImage
      ∧ out.2.1.any isDel = false) := by
  subst hout
  refine ⟨?_, ?_, ?_⟩
  · intro k hk hk2
    subst hk
    have hct : covTruthy (some k) = true := by simp [covTruthy, hk2]
    have hdec : attachmentDecision (some k) ud.coverImageAction = .replace k := by
      simp [attachmentDecision, hct]
    refine ⟨hdec, ?_⟩
    simp only [updateBook, hv, hr, hperm, hdbo, hrace, hbf, hdec, hct,
      UpdatePayload.isEmpty, Option.isNone_some, Bool.not_true, Bool.and_false,
      Bool.false_and, Bool.not_false, if_false, Bool.false_eq_true]
    refine ⟨_, rfl, by simp [applySet], ?_, ?_⟩
    · rw [findRec_setRec, hr]
      rfl
    · intro old hold hold2 holdk
      rw [hold]
      have h1 : covTruthy (some old) = true := by simp [covTruthy, hold2]
      have h3 : (old == "") = false := by simp [hold2]
      constructor
      · simp [h1, h3, deleteUploadedFile, applySet, delOf, holdk]
      · simp [beforeCommit, List.takeWhile, Ev.isCommit]
  · intro hnp hact
    subst hnp
    have hdec : attachmentDecision none ud.coverImageAction = .clear := by
      rcases hact with h | h <;> simp [attachmentDecision, covTruthy, h]
    refine ⟨hdec, ?_⟩
    have hne : (ud.coverImageAction == JsStr.undef) = false := by
      rcases hact with h | h <;> simp [h]
    simp only [updateBook, hv, Bool.not_true, Bool.false_eq_true, if_false, hr,
      hperm, hdbo, hrace, hbf, hdec, hne, UpdatePayload.isEmpty,
      Option.isNone_some, Bool.and_false]
    refine ⟨_, rfl, by simp [applySet], ?_, ?_⟩
    · rw [findRec_setRec, hr]
      rfl
    · intro old hold hold2
      rw [hold]
      have h1 : covTruthy (some old) = true := by simp [covTruthy, hold2]
      have h3 : (old == "") = false := by simp [hold2]
      simp [h1, h3, deleteUploadedFile, applySet, delOf]
  · intro hnp hact
    subst hnp
    have hdec : attachmentDecision none ud.coverImageAction = .keep := by
      simp [attachmentDecision, covTruthy, hact]
    have hbe : (ud.coverImageAction == JsStr.undef) = true := by
      rw [hact]
      exact beq_self_eq_true _
    have hp3 := buildFieldPayload_coverImage ud p3 hbf
    refine ⟨hdec, ?_, ?_⟩
    · simp only [updateBook, hv, Bool.not_true, Bool.false_eq_true, if_false, hr,
        hperm, hdbo, hrace, hbf, hdec, hbe, UpdatePayload.isEmpty, covTruthy,
        Bool.not_false, Bool.and_true, Option.isNone_none]
      split
      · simp [hr]
      · rw [findRec_setRec, hr]
        simp [applySet, hp3]
    · simp only [updateBook, hv, Bool.not_true, Bool.false_eq_true, if_false, hr,
        hperm, hdbo, hrace, hbf, hdec, hbe, UpdatePayload.isEmpty, covTruthy,
        Bool.not_false, Bool.and_true, Option.isNone_none]
      split
      · rfl
      · simp [isDel]

/-- Witness for C3: the owner of `rec1` clears the attachment with the
empty-string sentinel while also updating the year (no blob): the decision
is Clear, the committed record has no key, and the old blob is deleted. -/
theorem c3_attachment_decision_priority_witness :
    isValidObjectId bId1 = true ∧
    findRec bId1 st1 = some rec1 ∧
    (rec1.createdBy != "u1" && "user" != "admin") = false ∧
    buildFieldPayload ⟨none, none, some "1999", .str ""⟩
        = .ok ⟨none, none, some (some 1999), none⟩ ∧
    ((⟨.ok, false, fun _ => false⟩ : UpdateEnv).dbo = .ok) ∧
    ((⟨.ok, false, fun _ => false⟩ : UpdateEnv).raceGone = false) ∧
    ((∀ k, (none : Option String) = some k → k ≠ "" →
      attachmentDecision none
          (UpdateData.mk none none (some "1999") (.str "")).coverImageAction
          = .replace k
      ∧ ∃ r1, (updateBook bId1 ⟨none, none, some "1999", .str ""⟩ "u1" "user" none
            ⟨.ok, false, fun _ => false⟩ st1).1 = .ok r1 ∧ r1.coverImage = some k
          ∧ findRec bId1 (updateBook bId1 ⟨none, none, some "1999", .str ""⟩ "u1"
              "user" none ⟨.ok, false, fun _ => false⟩ st1).2.2 = some r1
          ∧ ∀ old, rec1.coverImage = some old → old ≠ "" → old ≠ k →
              ((updateBook bId1 ⟨none, none, some "1999", .str ""⟩ "u1" "user" none
                  ⟨.ok, false, fun _ => false⟩ st1).2.1.any (delOf old) = true
               ∧ (beforeCommit (updateBook bId1 ⟨none, none, some "1999", .str ""⟩
                    "u1" "user" none ⟨.ok, false, fun _ => false⟩ st1).2.1).any
                  (delOf old) = false))
    ∧ ((none : Option String) = none →
        ((UpdateData.mk none none (some "1999") (.str "")).coverImageAction = .str ""
          ∨ (UpdateData.mk none none (some "1999") (.str "")).coverImageAction
              = .null) →
      attachmentDecision none
          (UpdateData.mk none none (some "1999") (.str "")).coverImageAction
          = .clear
      ∧ ∃ r1, (updateBook bId1 ⟨none, none, some "1999", .str ""⟩ "u1" "user" none
            ⟨.ok, false, fun _ => false⟩ st1).1 = .ok r1 ∧ r1.coverImage = none
          ∧ findRec bId1 (updateBook bId1 ⟨none, none, some "1999", .str ""⟩ "u1"
              "user" none ⟨.ok, false, fun _ => false⟩ st1).2.2 = some r1
          ∧ ∀ old, rec1.coverImage = some old → old ≠ "" →
              (updateBook bId1 ⟨none, none, some "1999", .str ""⟩ "u1" "user" none
                  ⟨.ok, false, fun _ => false⟩ st1).2.1.any (delOf old) = true)
    ∧ ((none : Option String) = none →
        (UpdateData.mk none none (some "1999") (.str "")).coverImageAction
            = .undef →
      attachmentDecision none
          (UpdateData.mk none none (some "1999") (.str "")).coverImageAction
          = .keep
      ∧ (findRec bId1 (updateBook bId1 ⟨none, none, some "1999", .str ""⟩ "u1"
            "user" none ⟨.ok, false, fun _ => false⟩ st1).2.2).map
          (fun b => b.coverImage) = some rec1.coverImage
      ∧ (updateBook bId1 ⟨none, none, some "1999", .str ""⟩ "u1" "user" none
          ⟨.ok, false, fun _ => false⟩ st1).2.1.any isDel = false)) :=
  ⟨by decide, by decide, by decide, rfl, rfl, rfl,
   c3_attachment_decision_priority bId1 "u1" "user" ⟨none, none, some "1999", .str ""⟩
     none rec1 ⟨.ok, false, fun _ => false⟩ st1 ⟨none, none, some (some 1999), none⟩
     _ (by decide) (by decide) (by decide) rfl rfl rfl rfl⟩

/-- Counterexample to C3 as stated: on the S3-server controller's update
(src/controllers/book.js lines 179-197), a clear request (empty-string
sentinel, no blob) writes `coverImage: undefined`, which Mongoose strips
from the `$set` - so the committed record STILL references
`book-covers/old.png` even though the old blob was deleted, falsifying the
Clear bullet's "the resulting record has no attachment key". -/
theorem c3_counterexample_s3_clear_keeps_key :
    (updateBookS3Server s3Id ⟨none, none, .undef, .str ""⟩ false s3Env1 s3St).1
      = .ok s3Rec
    ∧ (findRec s3Id (updateBookS3Server s3Id ⟨none, none, .undef, .str ""⟩ false
        s3Env1 s3St).2.2).map (fun b => b.coverImage)
      = some (some "book-covers/old.png")
    ∧ (updateBookS3Server s3Id ⟨none, none, .undef, .str ""⟩ false s3Env1
        s3St).2.1.any (delOf "book-covers/old.png") = true :=
  ⟨rfl, by decide, by decide⟩

/-- C4, amended: repeating an identical successful update (same fields,
same clear action, no new blob) against the resulting state is a silent
success, not an `InvalidInput` rejection - it returns the same record,
performs no attachment deletion, and leaves the store unchanged.  Only a
request with no fields, no blob and no clear action is rejected. -/
theorem c4_repeat_update_silently_succeeds (bookId userId userRole : String)
    (ud : UpdateData) (env : UpdateEnv) (st st1 : Store) (r1 : BookRecord)
    (tr1 : List Ev)
    (h1 : updateBook bookId ud userId userRole none env st = (.ok r1, tr1, st1)) :
    updateBook bookId ud userId userRole none env st1
      = (.ok r1, [Ev.commit], st1) := by
  rcases hdec : attachmentDecision none ud.coverImageAction with k | _ | _
  · exact absurd (attachmentDecision_replace _ _ _ hdec) (by simp)
  all_goals
    simp only [updateBook, hdec] at h1 ⊢
    split at h1
    · simp at h1
    · rename_i hvn
      have hv : isValidObjectId bookId = true := by
        revert hvn
        cases isValidObjectId bookId <;> simp
      split at h1
      · simp at h1
      · rename_i existingBook heq
        split at h1
        · simp at h1
        · rename_i hperm0
          have hperm : (existingBook.createdBy != userId && userRole != "admin")
              = false := by
            revert hperm0
            cases (existingBook.createdBy != userId && userRole != "admin") <;> simp
          split at h1
          · simp at h1
          · rename_i p3 hbf
            split at h1
            · simp at h1
            · rename_i hguard0
              split at h1
              · simp at h1
              · simp at h1
              · rename_i hdbo
                split at h1
                · simp at h1
                · rename_i hrace0
                  have hrace : env.raceGone = false := by
                    revert hrace0
                    cases env.raceGone <;> simp
                  simp only at h1
                  rw [Prod.mk.injEq, Prod.mk.injEq] at h1
                  obtain ⟨hok, -, hst⟩ := h1
                  injection hok with hok2
                  have hfr2 : findRec bookId st1 = some r1 := by
                    rw [← hst, findRec_setRec, heq, hok2]
                    rfl
                  have hperm2 : (r1.createdBy != userId && userRole != "admin")
                      = false := by
                    rw [← hok2]
                    exact hperm
                  simp only [hv, Bool.not_true, Bool.false_eq_true, if_false,
                    hfr2, hbf, hperm2, hrace]
                  rw [← hok2, applySet_idem, ← hst, setRec_setRec]
                  rw [if_neg hguard0]
                  try rfl

/-- Witness for C4's amended statement: the owner renames `rec1` to
"Dune2"; repeating the identical request against the updated store
succeeds again with the same record and unchanged state. -/
theorem c4_repeat_update_silently_succeeds_witness :
    updateBook bId1 ⟨some "Dune2", none, none, .undef⟩ "u1" "user" none
        ⟨.ok, false, fun _ => false⟩ st1
      = (.ok { rec1 with title := "Dune2" }, [Ev.commit],
         setRec bId1 { rec1 with title := "Dune2" } st1) ∧
    updateBook bId1 ⟨some "Dune2", none, none, .undef⟩ "u1" "user" none
        ⟨.ok, false, fun _ => false⟩
        (setRec bId1 { rec1 with title := "Dune2" } st1)
      = (.ok { rec1 with title := "Dune2" }, [Ev.commit],
         setRec bId1 { rec1 with title := "Dune2" } st1) :=
  ⟨rfl,
   c4_repeat_update_silently_succeeds bId1 "u1" "user"
     ⟨some "Dune2", none, none, .undef⟩ ⟨.ok, false, fun _ => false⟩ st1
     (setRec bId1 { rec1 with title := "Dune2" } st1)
     { rec1 with title := "Dune2" } [Ev.commit] rfl⟩

/-- Counterexample to C4 as stated: the owner's title-change update on
`rec1` succeeds, and immediately repeating the identical request succeeds
again (returning the same record) instead of failing with the
`InvalidInput` no-op rejection the claim asserts. -/
theorem c4_counterexample_repeat_not_rejected :
    (updateBook bId1 ⟨some "Dune2", none, none, .undef⟩ "u1" "user" none
        ⟨.ok, false, fun _ => false⟩ st1).1 = .ok { rec1 with title := "Dune2" }
    ∧ (updateBook bId1 ⟨some "Dune2", none, none, .undef⟩ "u1" "user" none
        ⟨.ok, false, fun _ => false⟩
        (updateBook bId1 ⟨some "Dune2", none, none, .undef⟩ "u1" "user" none
          ⟨.ok, false, fun _ => false⟩ st1).2.2).1
      = .ok { rec1 with title := "Dune2" }
    ∧ ((updateBook bId1 ⟨some "Dune2", none, none, .undef⟩ "u1" "user" none
        ⟨.ok, false, fun _ => false⟩
        (updateBook bId1 ⟨some "Dune2", none, none, .undef⟩ "u1" "user" none
          ⟨.ok, false, fun _ => false⟩ st1).2.2).1 ≠ .error UErr.noUpdateData) := by
  refine ⟨rfl, rfl, fun h => ?_⟩
  have h2 : (Except.ok { rec1 with title := "Dune2" } : Except UErr BookRecord)
      = .error UErr.noUpdateData := h
  cases h2

end Bookstore
